import Mathlib

/-!
Verification of `gpsviz_crawl.py` (PhotoGPSViz): a shallow embedding of the
coordinate-conversion, extraction, zone-selection and directory-crawl logic,
with theorems checking the specification's claims.

Modelling conventions:
* Python floats are modelled as `ℚ` (the claims are about exact arithmetic
  identities, sign rules and list structure, not rounding).
* A Python `dict.get` result is an `Option`.
* Python truthiness is modelled explicitly where the source tests it:
  a string is truthy iff non-empty, a float iff nonzero, an EXIF rational
  iff its value is nonzero, `None` is falsy.
* The pyproj UTM projection (an external library call) is a parameter of the
  crawl; only the zone formula `floor((lon+180)/6)+1` is source code.
-/

namespace GpsViz

/-- EXIF GPS sub-table as produced by `get_exif_data`: each field is the
result of `gps_info.get(...)` in `get_coordinates` (lines 35-39), hence an
`Option`.  Latitude/longitude are (degrees, minutes, seconds) rational
triples; altitude is an EXIF rational stored as (numerator, denominator). -/
structure GpsInfo where
  GPSLatitude : Option (ℚ × ℚ × ℚ)
  GPSLatitudeRef : Option String
  GPSLongitude : Option (ℚ × ℚ × ℚ)
  GPSLongitudeRef : Option String
  GPSAltitude : Option (ℤ × ℤ)
deriving DecidableEq

/-- Value of a PIL `IFDRational`: numerator over denominator (source line 47
computes `altitude.numerator / float(altitude.denominator)`). -/
def ratVal (a : ℤ × ℤ) : ℚ := (a.1 : ℚ) / (a.2 : ℚ)

/-- Python truthiness of an `IFDRational` (`if altitude:` at line 45):
`numbers.Complex.__bool__` makes it truthy iff its value is nonzero. -/
def ratTruthy (a : ℤ × ℤ) : Bool := decide (ratVal a ≠ 0)

/-- Source `convert_to_degrees` (lines 25-28): unpacks `d, m, s = value`
and returns `d + m / 60.0 + s / 3600.0`. -/
def convert_to_degrees (value : ℚ × ℚ × ℚ) : ℚ :=
  value.1 + value.2.1 / 60 + value.2.2 / 3600

/-- Source `get_coordinates` (lines 30-53).  The input is the `"GPSInfo"`
entry of the EXIF mapping when present (`none` models an EXIF dict without
the `"GPSInfo"` key, which includes the empty dict returned for images
without metadata).  The guard at line 41 is Python
`if lat and lon and lat_ref and lon_ref:`: presence of the lat/lon triples
(a nonempty tuple is truthy) together with truthiness of the reference
strings (truthy iff non-empty). -/
def get_coordinates (exif_data : Option GpsInfo) : Option ℚ × Option ℚ × Option ℚ :=
  match exif_data with
  | none => (none, none, none)
  | some gps_info =>
      match gps_info.GPSLatitude, gps_info.GPSLongitude,
            gps_info.GPSLatitudeRef, gps_info.GPSLongitudeRef with
      | some lat, some lon, some lat_ref, some lon_ref =>
          if lat_ref ≠ "" ∧ lon_ref ≠ "" then
            let latitude := convert_to_degrees lat * (if lat_ref = "S" then -1 else 1)
            let longitude := convert_to_degrees lon * (if lon_ref = "W" then -1 else 1)
            let altitude : ℚ :=
              match gps_info.GPSAltitude with
              | some a => if ratTruthy a then ratVal a else 0
              | none => 0
            (some latitude, some longitude, some altitude)
          else (none, none, none)
      | _, _, _, _ => (none, none, none)

/-- Source `to_utm`, line 58: `zone_number = math.floor((lon + 180) / 6) + 1`. -/
def zone_number (lon : ℚ) : ℤ := ⌊(lon + 180) / 6⌋ + 1

/-- Python `str.lower`, character by character (the file names of interest
are ASCII). -/
def lowerStr (s : String) : String := ⟨s.data.map Char.toLower⟩

/-- Python `str.endswith` on the underlying character sequences. -/
def endsWithStr (s t : String) : Bool := t.data.isSuffixOf s.data

/-- Extension filter of `plot_photo_locations`, line 71:
`file.lower().endswith(('.png', '.jpg', '.jpeg'))` (a tuple argument to
`endswith` means: any of the three suffixes). -/
def matches_ext (file : String) : Bool :=
  endsWithStr (lowerStr file) ".png" || endsWithStr (lowerStr file) ".jpg" ||
    endsWithStr (lowerStr file) ".jpeg"

/-- Outcome of `Image.open(img_path)` followed by `get_exif_data(img)` for one
file: either the image opened and yielded an EXIF mapping (whose `"GPSInfo"`
entry is the `Option GpsInfo`), or the image library raised.  The source loop
(lines 69-80) contains no exception handler, so a raise propagates. -/
inductive OpenResult where
  | ok (exif : Option GpsInfo)
  | failure
deriving DecidableEq

/-- One regular file met by `os.walk`: its name and what opening it does. -/
structure DirFile where
  name : String
  result : OpenResult
deriving DecidableEq

/-- Accumulators of `plot_photo_locations`: `utm_x_values`, `utm_y_values`,
`altitudes` (lines 65-67), in discovery order. -/
abbrev Accum := List ℚ × List ℚ × List ℚ

/-- Body of the loop of `plot_photo_locations` for one successfully opened
file (lines 75-80): `get_coordinates`, then the guard `if lat and lon:`
(line 76) — Python truthiness of optional floats: `None` and `0.0` are both
falsy — and on success the three appends (lines 78-80), realised as `cons`
since the file under scrutiny comes before the rest of the traversal. -/
def step (proj : ℚ → ℚ → ℚ × ℚ) (exif : Option GpsInfo) (acc : Accum) : Accum :=
  match get_coordinates exif with
  | (some lat, some lon, alt) =>
      if lat ≠ 0 ∧ lon ≠ 0 then
        ((proj lat lon).1 :: acc.1, (proj lat lon).2 :: acc.2.1,
          alt.getD 0 :: acc.2.2)
      else acc
  | _ => acc

/-- The traversal loop of `plot_photo_locations` (lines 69-80) over the files
met by `os.walk`, parameterised by the pyproj projection `proj` standing for
`proj_utm(lon, lat)` inside `to_utm`.  For each file: the extension filter
(line 71), then `Image.open` (a raise propagates as `Except.error` since the
loop has no handler), then `step` for the body of the `with` block. -/
def crawl (proj : ℚ → ℚ → ℚ × ℚ) : List DirFile → Except Unit Accum
  | [] => Except.ok ([], [], [])
  | f :: rest =>
      if matches_ext f.name then
        match f.result with
        | OpenResult.failure => Except.error ()
        | OpenResult.ok exif => (crawl proj rest).map (step proj exif)
      else crawl proj rest

/-- A concrete projection stand-in used only to instantiate `proj` in closed
witness statements (the claims settled through `crawl` do not depend on the
projection's values). -/
def projEx (lat lon : ℚ) : ℚ × ℚ := (100 * lon, 100 * lat)

/-- C2: `convert_to_degrees` returns exactly `d + m/60 + s/3600` for every
input triple (exact in the rational model; the spec allows tolerance ε for
floats, and the code performs precisely this arithmetic). -/
theorem convert_to_degrees_formula (d m s : ℚ) :
    convert_to_degrees (d, m, s) = d + m / 60 + s / 3600 := rfl

/-- C4: whenever any one of the four required GPS fields (latitude,
latitude reference, longitude, longitude reference) is absent from the GPS
sub-table, `get_coordinates` returns the no-result triple
`(none, none, none)` — it is a total function, so no error is raised — even
when an altitude is present. -/
theorem missing_field_no_result (gps : GpsInfo)
    (h : gps.GPSLatitude = none ∨ gps.GPSLatitudeRef = none ∨
      gps.GPSLongitude = none ∨ gps.GPSLongitudeRef = none) :
    get_coordinates (some gps) = (none, none, none) := by
  obtain ⟨la, lr, lo, lor, al⟩ := gps
  cases la <;> cases lr <;> cases lo <;> cases lor <;>
    simp_all [get_coordinates]

/-- Witness for C4: latitude, latitude reference and longitude present,
longitude reference absent, altitude present: extraction yields no result. -/
theorem missing_field_no_result_witness :
    get_coordinates (some ⟨some (1, 0, 0), some "N", some (2, 0, 0),
      none, some (7, 2)⟩) = (none, none, none) :=
  missing_field_no_result _ (Or.inr (Or.inr (Or.inr rfl)))

/-- C6: for longitude in [-180, 180) the zone index
`floor((lon + 180) / 6) + 1` lies in [1, 60]; longitude -122.4 gives zone 10
and longitude 139.7 gives zone 54. -/
theorem zone_number_range_and_examples :
    (∀ lon : ℚ, -180 ≤ lon → lon < 180 →
      1 ≤ zone_number lon ∧ zone_number lon ≤ 60) ∧
    zone_number (-122.4) = 10 ∧ zone_number 139.7 = 54 := by
  refine ⟨fun lon h1 h2 => ?_, by norm_num [zone_number], by norm_num [zone_number]⟩
  unfold zone_number
  constructor
  · have h0 : (0 : ℚ) ≤ (lon + 180) / 6 := by
      apply div_nonneg <;> linarith
    have := Int.floor_nonneg.mpr h0
    omega
  · have hx : (lon + 180) / 6 < 60 := by
      rw [div_lt_iff₀ (by norm_num : (0 : ℚ) < 6)]
      linarith
    have : ⌊(lon + 180) / 6⌋ < 60 := Int.floor_lt.mpr (by push_cast; exact hx)
    omega

/-- Witness for C6: the range bound applied at longitude -122.4. -/
theorem zone_number_range_witness :
    1 ≤ zone_number (-122.4) ∧ zone_number (-122.4) ≤ 60 :=
  zone_number_range_and_examples.1 (-122.4) (by norm_num) (by norm_num)

/-- C10: for longitude outside [-180, 180) the zone formula yields an index
outside [1, 60] (no clamping, no error); in particular longitude 180 gives
zone 61. -/
theorem zone_number_out_of_range :
    (∀ lon : ℚ, lon < -180 ∨ 180 ≤ lon →
      zone_number lon < 1 ∨ 60 < zone_number lon) ∧
    zone_number 180 = 61 := by
  refine ⟨fun lon h => ?_, by norm_num [zone_number]⟩
  unfold zone_number
  rcases h with h | h
  · left
    have hx : (lon + 180) / 6 < 0 := by
      rw [div_lt_iff₀ (by norm_num : (0 : ℚ) < 6)]
      linarith
    have : ⌊(lon + 180) / 6⌋ < 0 := Int.floor_lt.mpr (by push_cast; exact hx)
    omega
  · right
    have hx : (60 : ℚ) ≤ (lon + 180) / 6 := by
      rw [le_div_iff₀ (by norm_num : (0 : ℚ) < 6)]
      linarith
    have : (60 : ℤ) ≤ ⌊(lon + 180) / 6⌋ := Int.le_floor.mpr (by push_cast; exact hx)
    omega

/-- Witness for C10: applied at longitude 180, which is outside [-180, 180). -/
theorem zone_number_out_of_range_witness :
    zone_number 180 < 1 ∨ 60 < zone_number 180 :=
  zone_number_out_of_range.1 180 (Or.inr le_rfl)

/-- Counterexample to C3 as stated: an empty latitude-reference string is a
reference value other than "S", yet with positive decimal latitude 1 the
extraction does not yield the non-negated value — Python string truthiness
makes the guard `if lat and lon and lat_ref and lon_ref:` fail, so the whole
extraction returns `(none, none, none)`. -/
theorem empty_ref_not_nonnegated :
    (get_coordinates (some ⟨some (1, 0, 0), some "", some (2, 0, 0),
      some "E", none⟩)).1 ≠ some (convert_to_degrees (1, 0, 0)) ∧
    get_coordinates (some ⟨some (1, 0, 0), some "", some (2, 0, 0),
      some "E", none⟩) = (none, none, none) := by
  constructor <;> simp [get_coordinates, convert_to_degrees]

/-- C3 (amended): when all four GPS fields are present and both reference
strings are non-empty, a latitude reference equal to "S" yields the negated
converted value and any other such reference yields the non-negated value;
symmetrically "W" for longitude.  (Amendment: an empty reference string does
not leave the value non-negated — it makes the extraction return no result.) -/
theorem hemisphere_sign_rule (latv lonv : ℚ × ℚ × ℚ) (latR lonR : String)
    (alt : Option (ℤ × ℤ)) (hlat : latR ≠ "") (hlon : lonR ≠ "") :
    (get_coordinates (some ⟨some latv, some latR, some lonv, some lonR,
        alt⟩)).1 =
      some (if latR = "S" then -(convert_to_degrees latv)
        else convert_to_degrees latv) ∧
    (get_coordinates (some ⟨some latv, some latR, some lonv, some lonR,
        alt⟩)).2.1 =
      some (if lonR = "W" then -(convert_to_degrees lonv)
        else convert_to_degrees lonv) := by
  simp only [get_coordinates]
  rw [if_pos ⟨hlat, hlon⟩]
  constructor <;> · split <;> simp

/-- Witness for C3: southern latitude reference "S" and eastern longitude
reference "E" on concrete coordinates. -/
theorem hemisphere_sign_rule_witness :
    (get_coordinates (some ⟨some (10, 30, 0), some "S", some (20, 0, 0),
        some "E", none⟩)).1 = some (-(convert_to_degrees (10, 30, 0))) ∧
    (get_coordinates (some ⟨some (10, 30, 0), some "S", some (20, 0, 0),
        some "E", none⟩)).2.1 = some (convert_to_degrees (20, 0, 0)) := by
  have h := hemisphere_sign_rule (10, 30, 0) (20, 0, 0) "S" "E" none
    (by decide) (by decide)
  simpa using h

/-- Counterexample to C5 as stated: a metadata mapping with all four
required GPS fields present (the longitude reference present but equal to
the empty string) and no altitude field does not return altitude 0.0 — the
truthiness guard fails and extraction returns `(none, none, none)`, so the
altitude component is `none`, not `some 0`. -/
theorem empty_ref_altitude_not_zero :
    (get_coordinates (some ⟨some (3, 0, 0), some "N", some (4, 0, 0),
      some "", none⟩)).2.2 ≠ some 0 ∧
    get_coordinates (some ⟨some (3, 0, 0), some "N", some (4, 0, 0),
      some "", none⟩) = (none, none, none) := by
  constructor <;> simp [get_coordinates]

/-- C5 (amended): when all four GPS fields are present with non-empty
reference strings, a missing altitude field yields altitude 0, and a present
altitude rational with nonzero denominator yields numerator divided by
denominator.  (Amendment: "present" must additionally mean the reference
strings are non-empty, else extraction returns no result at all.) -/
theorem altitude_default_and_value (latv lonv : ℚ × ℚ × ℚ)
    (latR lonR : String) (hlat : latR ≠ "") (hlon : lonR ≠ "") :
    (get_coordinates (some ⟨some latv, some latR, some lonv, some lonR,
        none⟩)).2.2 = some 0 ∧
    ∀ n d : ℤ, d ≠ 0 →
      (get_coordinates (some ⟨some latv, some latR, some lonv, some lonR,
          some (n, d)⟩)).2.2 = some ((n : ℚ) / (d : ℚ)) := by
  constructor
  · simp only [get_coordinates]
    rw [if_pos ⟨hlat, hlon⟩]
  · intro n d _
    simp only [get_coordinates]
    rw [if_pos ⟨hlat, hlon⟩]
    simp only [ratTruthy, ratVal]
    split <;> simp_all

/-- Witness for C5: concrete coordinates with references "N" and "E";
missing altitude gives 0 and altitude rational 301/10 gives 301/10. -/
theorem altitude_default_and_value_witness :
    (get_coordinates (some ⟨some (3, 0, 0), some "N", some (4, 0, 0),
        some "E", none⟩)).2.2 = some 0 ∧
    (get_coordinates (some ⟨some (3, 0, 0), some "N", some (4, 0, 0),
        some "E", some (301, 10)⟩)).2.2 = some ((301 : ℚ) / (10 : ℚ)) := by
  have h := altitude_default_and_value (3, 0, 0) (4, 0, 0) "N" "E"
    (by decide) (by decide)
  exact ⟨h.1, h.2 301 10 (by decide)⟩

/-- C7: the traversal processes exactly the files passing the extension
filter: (a) the crawl result only depends on the files whose lowered name
ends in .png, .jpg or .jpeg; (b) a matching file is genuinely opened — if
opening it raises, the crawl errors; (c) the filter accepts the tool's own
output filename, so a previous output in the scanned root is visited on a
re-run. -/
theorem extension_filter_exact :
    (∀ (proj : ℚ → ℚ → ℚ × ℚ) (files : List DirFile),
      crawl proj files =
        crawl proj (files.filter fun f => matches_ext f.name)) ∧
    (∀ (proj : ℚ → ℚ → ℚ × ℚ) (name : String) (rest : List DirFile),
      matches_ext name = true →
      crawl proj (⟨name, OpenResult.failure⟩ :: rest) = Except.error ()) ∧
    matches_ext "photo_locations_and_altitudes.png" = true := by
  refine ⟨fun proj files => ?_,
    fun proj name rest h => by simp [crawl, h], by decide⟩
  induction files with
  | nil => rfl
  | cons f rest ih =>
    by_cases h : matches_ext f.name
    · cases hr : f.result <;> simp [crawl, h, hr, List.filter_cons, ih]
    · simp [crawl, h, List.filter_cons, ih]

/-- Witness for C7: a matching file (uppercase extension) whose open fails
makes the crawl error, i.e. the file was indeed attempted. -/
theorem extension_filter_exact_witness :
    crawl projEx [⟨"x.PNG", OpenResult.failure⟩] = Except.error () :=
  extension_filter_exact.2.1 projEx "x.PNG" [] (by decide)

/-- Counterexample to C8 as stated: a single matching file whose open raises
is not silently skipped — the error propagates out of the traversal (the
loop body of `plot_photo_locations` has no exception handler). -/
theorem open_failure_propagates :
    crawl projEx [⟨"a.jpg", OpenResult.failure⟩] = Except.error () := by
  have h : matches_ext "a.jpg" = true := by decide
  simp [crawl, h]

/-- C8 (amended): a matching file that opens but lacks metadata or GPS
fields is silently skipped and processing continues — when every matching
file opens successfully the crawl returns a result, whatever the files
contain; but a matching file that fails to open raises an error that
propagates and halts the traversal (shown by the counterexample). -/
theorem skip_semantics :
    (∀ (proj : ℚ → ℚ → ℚ × ℚ) (files : List DirFile),
      (∀ f ∈ files, matches_ext f.name = true →
        f.result ≠ OpenResult.failure) →
      ∃ acc, crawl proj files = Except.ok acc) ∧
    (∀ (proj : ℚ → ℚ → ℚ × ℚ) (name : String) (exif : Option GpsInfo)
      (rest : List DirFile),
      get_coordinates exif = (none, none, none) →
      crawl proj (⟨name, OpenResult.ok exif⟩ :: rest) = crawl proj rest) := by
  constructor
  · intro proj files
    induction files with
    | nil => exact fun _ => ⟨([], [], []), rfl⟩
    | cons f rest ih =>
      intro h
      obtain ⟨acc, hacc⟩ := ih fun g hg hm => h g (List.mem_cons_of_mem _ hg) hm
      by_cases hm : matches_ext f.name
      · cases hr : f.result with
        | ok exif =>
          exact ⟨step proj exif acc, by simp [crawl, hm, hr, hacc, Except.map]⟩
        | failure => exact absurd hr (h f (List.mem_cons_self _ _) hm)
      · exact ⟨acc, by simp [crawl, hm, hacc]⟩
  · intro proj name exif rest h
    by_cases hm : matches_ext name
    · have hstep : step proj exif = id := funext fun acc => by simp [step, h]
      simp only [crawl, hm, if_pos, hstep]
      cases crawl proj rest <;> simp [Except.map]
    · simp [crawl, hm]

/-- Witness for C8: a non-matching failing file plus a matching file with no
metadata still crawl to a result, and the metadata-less file contributes
nothing. -/
theorem skip_semantics_witness :
    (∃ acc, crawl projEx [⟨"notes.txt", OpenResult.failure⟩,
      ⟨"b.jpg", OpenResult.ok none⟩] = Except.ok acc) ∧
    crawl projEx [⟨"b.jpg", OpenResult.ok none⟩] = crawl projEx [] :=
  ⟨skip_semantics.1 projEx _ (by decide),
   skip_semantics.2 projEx "b.jpg" none [] rfl⟩

/-- Processing one opened file preserves equality of the three accumulator
lengths: an accepted point appends one element to each list, a rejected one
to none. -/
lemma step_lengths (proj : ℚ → ℚ → ℚ × ℚ) (exif : Option GpsInfo)
    (acc : Accum) (h1 : acc.1.length = acc.2.1.length)
    (h2 : acc.2.1.length = acc.2.2.length) :
    (step proj exif acc).1.length = (step proj exif acc).2.1.length ∧
    (step proj exif acc).2.1.length = (step proj exif acc).2.2.length := by
  obtain ⟨xs, ys, alts⟩ := acc
  rcases hc : get_coordinates exif with ⟨l, o, a⟩
  cases l <;> cases o <;> simp only [step, hc] <;>
    first
    | exact ⟨h1, h2⟩
    | split <;> simp_all

/-- C9: the three accumulator lists stay parallel — whenever the traversal
completes, the eastings, northings and altitudes lists have equal length. -/
theorem crawl_lists_parallel (proj : ℚ → ℚ → ℚ × ℚ) (files : List DirFile)
    (xs ys alts : List ℚ)
    (h : crawl proj files = Except.ok (xs, ys, alts)) :
    xs.length = ys.length ∧ ys.length = alts.length := by
  induction files generalizing xs ys alts with
  | nil =>
    simp [crawl] at h
    obtain ⟨h1, h2, h3⟩ := h
    subst h1; subst h2; subst h3
    exact ⟨rfl, rfl⟩
  | cons f rest ih =>
    by_cases hm : matches_ext f.name
    · cases hr : f.result with
      | failure => simp [crawl, hm, hr] at h
      | ok exif =>
        simp only [crawl, hm, hr, if_pos] at h
        cases hcr : crawl proj rest with
        | error e => rw [hcr] at h; simp [Except.map] at h
        | ok acc =>
          rw [hcr] at h
          obtain ⟨as, bs, cs⟩ := acc
          simp only [Except.map, Except.ok.injEq] at h
          have hlen := step_lengths proj exif (as, bs, cs)
            (ih as bs cs hcr).1 (ih as bs cs hcr).2
          rw [h] at hlen
          exact hlen
    · simp only [crawl, hm, if_neg, Bool.false_eq_true, if_false] at h
      exact ih xs ys alts h

/-- Witness for C9: one matching file with coordinates (1, 2) and altitude
30 yields singleton lists of equal length. -/
theorem crawl_lists_parallel_witness :
    ([(200 : ℚ)]).length = ([(100 : ℚ)]).length ∧
    ([(100 : ℚ)]).length = ([(30 : ℚ)]).length := by
  apply crawl_lists_parallel projEx
    [⟨"a.jpg", OpenResult.ok (some ⟨some (1, 0, 0), some "N",
      some (2, 0, 0), some "E", some (30, 1)⟩)⟩]
  have hm : matches_ext "a.jpg" = true := by decide
  simp [crawl, hm, step, get_coordinates, convert_to_degrees, ratTruthy,
    ratVal, Except.map, projEx]
  norm_num

/-- Counterexample to C1 as stated: an image at the equator yields the valid
GeoPoint (0, 10, 5) from extraction, yet nothing is appended or plotted —
the guard `if lat and lon:` (line 76) uses Python truthiness, under which
the float `0.0` is falsy, so a point with latitude or longitude exactly 0 is
excluded even though neither coordinate is missing. -/
theorem zero_latitude_point_dropped :
    get_coordinates (some ⟨some (0, 0, 0), some "N", some (10, 0, 0),
      some "E", some (5, 1)⟩) = (some 0, some 10, some 5) ∧
    crawl projEx [⟨"eq.jpg", OpenResult.ok (some ⟨some (0, 0, 0), some "N",
      some (10, 0, 0), some "E", some (5, 1)⟩)⟩] = Except.ok ([], [], []) := by
  have hm : matches_ext "eq.jpg" = true := by decide
  constructor
  · simp [get_coordinates, convert_to_degrees, ratTruthy, ratVal]
  · simp [crawl, hm, step, get_coordinates, convert_to_degrees, ratTruthy,
      ratVal, Except.map]

/-- C1 (amended): for a matching file whose metadata yields a valid GeoPoint
with both latitude and longitude nonzero, the projected point and altitude
are prepended to the traversal of the remaining files — in particular a
point with zero altitude is still plotted, with altitude 0, since altitude
is not consulted by the guard; but a valid GeoPoint with latitude or
longitude equal to zero is excluded from all output, exactly as a point with
a missing coordinate is.  (Amendment: exclusion happens not only when a
coordinate is missing but also when it equals 0.0, by Python truthiness.) -/
theorem crawl_append_of_nonzero_coords (proj : ℚ → ℚ → ℚ × ℚ)
    (name : String) (exif : Option GpsInfo) (rest : List DirFile)
    (la lo al : ℚ) (hm : matches_ext name = true)
    (hc : get_coordinates exif = (some la, some lo, some al)) :
    (la ≠ 0 → lo ≠ 0 →
      crawl proj (⟨name, OpenResult.ok exif⟩ :: rest) =
        (crawl proj rest).map fun acc =>
          ((proj la lo).1 :: acc.1, (proj la lo).2 :: acc.2.1,
            al :: acc.2.2)) ∧
    ((la = 0 ∨ lo = 0) →
      crawl proj (⟨name, OpenResult.ok exif⟩ :: rest) = crawl proj rest) := by
  constructor
  · intro h1 h2
    have hstep : step proj exif = fun acc =>
        ((proj la lo).1 :: acc.1, (proj la lo).2 :: acc.2.1,
          al :: acc.2.2) := by
      funext acc
      simp [step, hc, h1, h2]
    simp [crawl, hm, hstep]
  · intro h0
    have hstep : step proj exif = id := by
      funext acc
      have hneg : ¬(la ≠ 0 ∧ lo ≠ 0) := by
        rintro ⟨ha, hb⟩
        rcases h0 with h | h
        · exact ha h
        · exact hb h
      simp [step, hc, hneg]
    simp only [crawl, hm, if_pos, hstep]
    cases crawl proj rest <;> simp [Except.map]

/-- Witness for C1: a matching file whose metadata gives latitude -2
(reference "S"), longitude 3 and no altitude is appended with altitude 0. -/
theorem crawl_append_of_nonzero_coords_witness :
    crawl projEx [⟨"photo.jpeg", OpenResult.ok (some ⟨some (2, 0, 0),
      some "S", some (3, 0, 0), some "E", none⟩)⟩] =
      (crawl projEx []).map fun acc =>
        ((projEx (-2) 3).1 :: acc.1, (projEx (-2) 3).2 :: acc.2.1,
          (0 : ℚ) :: acc.2.2) := by
  have h := crawl_append_of_nonzero_coords projEx "photo.jpeg"
    (some ⟨some (2, 0, 0), some "S", some (3, 0, 0), some "E", none⟩) []
    (-2) 3 0 (by decide)
    (by simp [get_coordinates, convert_to_degrees])
  exact h.1 (by norm_num) (by norm_num)

end GpsViz
